import Mathlib

/-!
Verification of the session-guard authentication module.

The development shallowly embeds `src/modules/session_guard/guard.ts`:
users are represented by their identifiers (`Nat`), the HTTP context,
session store, response cookies, provider persistence and the event
emitter are folded into an explicit `World` state threaded through every
operation, and each guard method becomes a pure Lean function returning
an `Except`-style result together with the updated guard and world.
Timestamps are seconds (`Nat`); randomness (fresh series/secret values)
is supplied through an `Env` record.
-/

namespace SessionAuth

/-- Length of the default remember-me token age ("2years") in seconds. -/
def twoYears : Nat := 63072000

/-- Environment for one guard operation: the current clock reading and
the random values the next token creation or refresh would draw. -/
structure Env where
  now : Nat
  freshSeries : Nat
  freshSecret : Nat
deriving Repr, DecidableEq

/-- Configuration of the session guard: `rememberMeTokenAge` from
`SessionGuardConfig`, `none` meaning the source default of "2years". -/
structure SessionGuardConfig where
  rememberMeTokenAge : Option Nat := none
deriving Repr, DecidableEq

/-- Modelled from the spec: the secret-token hashing of the Secret Token
Codec (the codec source file is not part of `src/`). The spec needs the
digest to be deterministic and to verify exactly the hashed secret, so
the digest is an injective function of the secret. -/
def hashSecret (secret : Nat) : Nat := 2 * secret + 1

/-- A client-side remember-me cookie value: either a well-formed encoding
of a series/secret pair, or an arbitrary undecodable string. -/
inductive CookieVal where
  | enc (series : Nat) (secret : Nat)
  | garbage (n : Nat)
deriving Repr, DecidableEq

/-- Modelled from the spec: the `RememberMeToken` entity of
`remember_me_token.ts`, which is not part of `src/` (only its caller
`guard.ts` is). Fields follow §3 of the design: a series, the owning
user id, the issuing guard name, the persisted hash, the transient
plaintext secret, and the three timestamps. -/
structure RememberMeToken where
  series : Nat
  userId : Nat
  guard : String
  hash : Nat
  value : Option Nat
  createdAt : Nat
  updatedAt : Nat
  expiresAt : Nat
deriving Repr, DecidableEq

namespace RememberMeToken

/-- Modelled from the spec: `RememberMeToken.create(userId, ttl, guardName)`
generates a fresh random series and secret, computes the hash and sets
`expiresAt = now + ttl`. -/
def create (userId : Nat) (ttl : Nat) (guardName : String) (env : Env) :
    RememberMeToken :=
  { series := env.freshSeries
    userId := userId
    guard := guardName
    hash := hashSecret env.freshSecret
    value := some env.freshSecret
    createdAt := env.now
    updatedAt := env.now
    expiresAt := env.now + ttl }

/-- Modelled from the spec: `decode(cookieValue)` yields `{series, value}`
or a definitive decode failure, with no partial states and no exception. -/
def decode : CookieVal → Option (Nat × Nat)
  | .enc series secret => some (series, secret)
  | .garbage _ => none

/-- Modelled from the spec: `verify(candidateSecret)` hashes the candidate
and compares it with the stored hash. -/
def verify (t : RememberMeToken) (candidate : Nat) : Bool :=
  hashSecret candidate == t.hash

/-- Modelled from the spec: `refresh(ttl)` regenerates `value`/`hash` from
a fresh random secret and bumps `updatedAt` and `expiresAt`. -/
def refresh (t : RememberMeToken) (ttl : Nat) (env : Env) : RememberMeToken :=
  { t with
    value := some env.freshSecret
    hash := hashSecret env.freshSecret
    updatedAt := env.now
    expiresAt := env.now + ttl }

/-- Modelled from the spec: releasing the one-time cookie value of a token
yields the encoding of its series together with the plaintext secret. -/
def releaseCookie (t : RememberMeToken) (secret : Nat) : CookieVal :=
  .enc t.series secret

end RememberMeToken

/-- The events `guard.ts` emits (the `session_auth:*` event names). -/
inductive EventName where
  | loginAttempted
  | loginSucceeded
  | loginFailed
  | authenticationAttempted
  | authenticationSucceeded
  | authenticationFailed
  | credentialsVerified
  | loggedOut
deriving Repr, DecidableEq

/-- Observable actions of one request: session-store operations, provider
calls and cookie writes, recorded in order, plus every emitted event. -/
inductive LogEntry where
  | sessionPut (key : String) (value : Nat)
  | sessionRegenerate
  | sessionForget (key : String)
  | providerFindById (id : Nat)
  | providerVerifyCredentials (uid : String)
  | providerCreateUserForGuard
  | providerCreateToken (series : Nat)
  | providerRecycleToken (series : Nat)
  | providerFindTokenBySeries (series : Nat)
  | providerDeleteTokenBySeries (series : Nat)
  | setCookie (v : CookieVal)
  | clearCookie
  | emit (e : EventName)
deriving Repr, DecidableEq

/-- State of the response's remember-me cookie slot. -/
inductive RespCookie where
  | set (v : CookieVal)
  | cleared
deriving Repr, DecidableEq

/-- The mutable world a request sees: whether the context has a session
(`'session' in ctx`), the session key/value store and its id, the
provider-persisted remember-me tokens, the response cookie slot, and the
trace of observable actions. -/
structure World where
  hasSession : Bool
  sessionStore : List (String × Nat)
  sessionId : Nat
  tokens : List RememberMeToken
  respCookie : Option RespCookie
  log : List LogEntry
deriving Repr, DecidableEq

/-- Reads a key from the session store, `session.get(key)`. -/
def sessionGet (store : List (String × Nat)) (key : String) : Option Nat :=
  (store.find? (fun e => e.1 == key)).map (fun e => e.2)

/-- Writes a key into the session store, `session.put(key, value)`. -/
def wPut (w : World) (key : String) (v : Nat) : World :=
  { w with
    sessionStore := (key, v) :: w.sessionStore.filter (fun e => e.1 != key)
    log := w.log ++ [.sessionPut key v] }

/-- Regenerates the session id, `session.regenerate()`: a fresh id,
session data preserved. -/
def wRegenerate (w : World) : World :=
  { w with sessionId := w.sessionId + 1, log := w.log ++ [.sessionRegenerate] }

/-- Removes a key from the session store, `session.forget(key)`. -/
def wForget (w : World) (key : String) : World :=
  { w with
    sessionStore := w.sessionStore.filter (fun e => e.1 != key)
    log := w.log ++ [.sessionForget key] }

/-- Sets the response's encrypted remember-me cookie,
`response.encryptedCookie(key, value, options)`. -/
def wSetCookie (w : World) (v : CookieVal) : World :=
  { w with respCookie := some (.set v), log := w.log ++ [.setCookie v] }

/-- Clears the response's remember-me cookie, `response.clearCookie(key)`. -/
def wClearCookie (w : World) : World :=
  { w with respCookie := some .cleared, log := w.log ++ [.clearCookie] }

/-- Emits a guard event through the emitter. -/
def wEmit (w : World) (e : EventName) : World :=
  { w with log := w.log ++ [.emit e] }

/-- Appends a provider-call record to the trace. -/
def wLog (w : World) (e : LogEntry) : World :=
  { w with log := w.log ++ [e] }

/-- The user provider seen by the guard: the set of resolvable user ids,
the credential table, and which of the optional remember-me capabilities
(`createRememberMeToken`, `findRememberMeTokenBySeries`,
`recycleRememberMeToken`, `deleteRememberMeTokenBySeries`) it implements. -/
structure UserProvider where
  users : List Nat
  creds : List (String × String × Nat)
  hasCreateRememberMeToken : Bool
  hasFindRememberMeTokenBySeries : Bool
  hasRecycleRememberMeToken : Bool
  hasDeleteRememberMeTokenBySeries : Bool
deriving Repr, DecidableEq

/-- `userProvider.findById(id)`: resolves an id to the guard user, or
`null` when the id no longer resolves. -/
def findById (p : UserProvider) (id : Nat) : Option Nat :=
  if p.users.contains id then some id else none

/-- `userProvider.verifyCredentials(uid, password)`: resolves matching
credentials to the user, or `null` on no match. -/
def provVerifyCredentials (p : UserProvider) (uid password : String) : Option Nat :=
  (p.creds.find? (fun c => c.1 == uid && c.2.1 == password)).map (fun c => c.2.2)

/-- `userProvider.findRememberMeTokenBySeries(series)` over the persisted
tokens. Per the comment in `guard.ts`, the provider checks expiry itself
and returns `null` for expired tokens. -/
def findTokenBySeries (tokens : List RememberMeToken) (now : Nat) (series : Nat) :
    Option RememberMeToken :=
  match tokens.find? (fun t => t.series == series) with
  | some t => if now ≤ t.expiresAt then some t else none
  | none => none

/-- The failure taxonomy of the guard: `E_INVALID_CREDENTIALS`,
`E_UNAUTHORIZED_ACCESS`, the generic `Exception` thrown for a provider
missing `createRememberMeToken`, and the `RuntimeException` thrown when
the context has no session. -/
inductive AuthErr where
  | invalidCredentials
  | unauthorized
  | misconfiguredProvider
  | runtimeError
deriving Repr, DecidableEq

/-- Per-request state of `SessionGuard`: its name and the mutable fields
`authenticationAttempted`, `isLoggedOut`, `isAuthenticated`,
`viaRemember` and `user`. -/
structure SessionGuard where
  name : String
  authenticationAttempted : Bool := false
  isLoggedOut : Bool := false
  isAuthenticated : Bool := false
  viaRemember : Bool := false
  user : Option Nat := none
deriving Repr, DecidableEq

/-- A freshly constructed guard, as after the `SessionGuard` constructor. -/
def freshGuard (name : String) : SessionGuard := { name := name }

/-- `sessionKeyName`: the session key storing the logged-in user id. -/
def sessionKeyName (g : SessionGuard) : String := "auth_" ++ g.name

/-- `rememberMeKeyName`: the cookie key for the remember-me token. -/
def rememberMeKeyName (g : SessionGuard) : String := "remember_" ++ g.name

/-- Decidable equality for `Except`, needed to evaluate concrete runs. -/
instance {ε α : Type} [DecidableEq ε] [DecidableEq α] :
    DecidableEq (Except ε α) := fun a b =>
  match a, b with
  | .ok x, .ok y =>
      if h : x = y then .isTrue (by simp [h]) else .isFalse (by simp [h])
  | .error x, .error y =>
      if h : x = y then .isTrue (by simp [h]) else .isFalse (by simp [h])
  | .ok _, .error _ => .isFalse (by simp)
  | .error _, .ok _ => .isFalse (by simp)

/-- Result of one guard operation: the returned value or thrown error,
with the guard and world as the operation left them. -/
structure StepResult (α : Type) where
  res : Except AuthErr α
  guard : SessionGuard
  world : World
deriving Repr, DecidableEq

/-- JavaScript truthiness of a possibly-missing numeric session value
(`if (loggedInUserId)`): absent and `0` are falsy. -/
def jsTruthy : Option Nat → Bool
  | some n => n != 0
  | none => false

/-- The guard's `#loginFailed`: emits `session_auth:login_failed` and
returns the `E_INVALID_CREDENTIALS` error to be thrown. -/
def loginFailedStep (w : World) : AuthErr × World :=
  (.invalidCredentials, wEmit w .loginFailed)

/-- The guard's `#authenticationFailed`: emits
`session_auth:authentication_failed` and returns `E_UNAUTHORIZED_ACCESS`. -/
def authenticationFailedStep (w : World) : AuthErr × World :=
  (.unauthorized, wEmit w .authenticationFailed)

/-- The guard's `#authenticationSucceeded`: sets `isAuthenticated`,
clears `isLoggedOut`, records whether authentication used a remember-me
token, and emits `session_auth:authentication_succeeded`. -/
def authenticationSucceededStep (g : SessionGuard) (w : World)
    (rememberMeToken : Option RememberMeToken) : SessionGuard × World :=
  ({ g with
      isAuthenticated := true
      isLoggedOut := false
      viaRemember := rememberMeToken.isSome },
   wEmit w .authenticationSucceeded)

/-- The guard's `#createSessionForUser`: `session.put(sessionKeyName, userId)`
followed by `session.regenerate()`. -/
def createSessionForUser (g : SessionGuard) (w : World) (userId : Nat) : World :=
  wRegenerate (wPut w (sessionKeyName g) userId)

/-- The guard's `#createRememberMeCookie`: sets the encrypted remember-me
cookie on the response. -/
def createRememberMeCookie (w : World) (v : CookieVal) : World :=
  wSetCookie w v

/-- The guard's `#recycleRememberMeToken`: when the clock has passed the
token's `updatedAt` plus a 60-second buffer, refreshes the token,
persists it via `recycleRememberMeToken` and sets the cookie to the
newly released value; otherwise re-issues the existing cookie unchanged. -/
def recycleRememberMeToken (cfg : SessionGuardConfig) (env : Env)
    (w : World) (token : RememberMeToken) (rememberMeCookie : CookieVal) :
    World :=
  if token.updatedAt + 60 < env.now then
    let tok := token.refresh (cfg.rememberMeTokenAge.getD twoYears) env
    let w :=
      { w with
        tokens := w.tokens.map (fun t => if t.series == tok.series then tok else t)
        log := w.log ++ [.providerRecycleToken tok.series] }
    createRememberMeCookie w (tok.releaseCookie env.freshSecret)
  else
    createRememberMeCookie w rememberMeCookie

/-- The guard's `#authenticateViaId`: looks the session-stored id up with
the provider; marks the user authenticated on success, otherwise throws
the unauthorized failure. -/
def authenticateViaId (p : UserProvider) (g : SessionGuard) (w : World)
    (loggedInUserId : Nat) : StepResult Nat :=
  let w := wLog w (.providerFindById loggedInUserId)
  match findById p loggedInUserId with
  | none =>
      let (e, w) := authenticationFailedStep w
      ⟨.error e, g, w⟩
  | some uid =>
      let g := { g with user := some uid }
      let (g, w) := authenticationSucceededStep g w none
      ⟨.ok uid, g, w⟩

/-- The guard's `#authenticateViaRememberCookie`: fails unauthorized when
the provider lacks the lookup/recycle capabilities, when the cookie does
not decode, when the series is unknown, the secret does not verify or the
token belongs to another guard, or when the token's user no longer
resolves; otherwise creates a fresh session, marks the user authenticated
and recycles the token. -/
def authenticateViaRememberCookie (cfg : SessionGuardConfig) (env : Env)
    (p : UserProvider) (g : SessionGuard) (w : World) (cookie : CookieVal) :
    StepResult Nat :=
  if !p.hasFindRememberMeTokenBySeries || !p.hasRecycleRememberMeToken then
    let (e, w) := authenticationFailedStep w
    ⟨.error e, g, w⟩
  else
    match RememberMeToken.decode cookie with
    | none =>
        let (e, w) := authenticationFailedStep w
        ⟨.error e, g, w⟩
    | some (series, value) =>
        let w := wLog w (.providerFindTokenBySeries series)
        match findTokenBySeries w.tokens env.now series with
        | none =>
            let (e, w) := authenticationFailedStep w
            ⟨.error e, g, w⟩
        | some token =>
            if !token.verify value || token.guard != g.name then
              let (e, w) := authenticationFailedStep w
              ⟨.error e, g, w⟩
            else
              let w := wLog w (.providerFindById token.userId)
              match findById p token.userId with
              | none =>
                  let (e, w) := authenticationFailedStep w
                  ⟨.error e, g, w⟩
              | some uid =>
                  let w := createSessionForUser g w uid
                  let g := { g with user := some uid }
                  let (g, w) := authenticationSucceededStep g w (some token)
                  let w := recycleRememberMeToken cfg env w token cookie
                  ⟨.ok uid, g, w⟩

/-- `getUserOrFail()`: the current principal, or the unauthorized error
(no event is emitted and no provider call is made). -/
def getUserOrFail (g : SessionGuard) : Except AuthErr Nat :=
  match g.user with
  | none => .error .unauthorized
  | some u => .ok u

/-- `verifyCredentials(uid, password)`: provider credential check; on no
match emits the login-failed event and throws `E_INVALID_CREDENTIALS`,
on success emits `session_auth:credentials_verified`. -/
def verifyCredentials (p : UserProvider) (g : SessionGuard) (w : World)
    (uid password : String) : StepResult Nat :=
  let w := wLog w (.providerVerifyCredentials uid)
  match provVerifyCredentials p uid password with
  | none =>
      let (e, w) := loginFailedStep w
      ⟨.error e, g, w⟩
  | some u => ⟨.ok u, g, wEmit w .credentialsVerified⟩

/-- `login(user, remember)`: emits the login-attempted event, requires a
session, resolves the provider adapter; with `remember` it requires
`createRememberMeToken` (generic misconfiguration exception if absent),
persists a fresh token and sets the cookie, otherwise clears the cookie;
then stores the id in the session, regenerates the session id, updates
`user`/`isLoggedOut` and emits the login-succeeded event. -/
def login (cfg : SessionGuardConfig) (env : Env) (p : UserProvider)
    (g : SessionGuard) (w : World) (user : Nat) (remember : Bool) :
    StepResult Nat :=
  let w := wEmit w .loginAttempted
  if !w.hasSession then ⟨.error .runtimeError, g, w⟩
  else
    let w := wLog w .providerCreateUserForGuard
    let userId := user
    let finish := fun (w : World) =>
      let w := createSessionForUser g w userId
      let g := { g with user := some user, isLoggedOut := false }
      let w := wEmit w .loginSucceeded
      (⟨.ok user, g, w⟩ : StepResult Nat)
    if remember then
      if !p.hasCreateRememberMeToken then ⟨.error .misconfiguredProvider, g, w⟩
      else
        let token :=
          RememberMeToken.create userId (cfg.rememberMeTokenAge.getD twoYears)
            g.name env
        let w :=
          { w with
            tokens := w.tokens ++ [token]
            log := w.log ++ [.providerCreateToken token.series] }
        let w := createRememberMeCookie w (token.releaseCookie env.freshSecret)
        finish w
    else
      finish (wClearCookie w)

/-- `attempt(uid, password, remember)`: `verifyCredentials` then `login`. -/
def attempt (cfg : SessionGuardConfig) (env : Env) (p : UserProvider)
    (g : SessionGuard) (w : World) (uid password : String) (remember : Bool) :
    StepResult Nat :=
  let s := verifyCredentials p g w uid password
  match s.res with
  | .error e => ⟨.error e, s.guard, s.world⟩
  | .ok user => login cfg env p s.guard s.world user remember

/-- `loginViaId(userId, remember)`: provider lookup by id, the
login-failed error when absent, otherwise `login`. -/
def loginViaId (cfg : SessionGuardConfig) (env : Env) (p : UserProvider)
    (g : SessionGuard) (w : World) (userId : Nat) (remember : Bool) :
    StepResult Nat :=
  let w := wLog w (.providerFindById userId)
  match findById p userId with
  | none =>
      let (e, w) := loginFailedStep w
      ⟨.error e, g, w⟩
  | some uid => login cfg env p g w uid remember

/-- `authenticate()`: on a repeated call returns `getUserOrFail()`;
otherwise marks the attempt, requires a session, emits the
authentication-attempted event, then resolves via the session-stored id,
else via the remember-me cookie, else fails unauthorized. -/
def authenticate (cfg : SessionGuardConfig) (env : Env) (p : UserProvider)
    (g : SessionGuard) (w : World) (reqCookie : Option CookieVal) :
    StepResult Nat :=
  if g.authenticationAttempted then ⟨getUserOrFail g, g, w⟩
  else
    let g := { g with authenticationAttempted := true }
    if !w.hasSession then ⟨.error .runtimeError, g, w⟩
    else
      let w := wEmit w .authenticationAttempted
      let loggedInUserId := sessionGet w.sessionStore (sessionKeyName g)
      if jsTruthy loggedInUserId then
        authenticateViaId p g w (loggedInUserId.getD 0)
      else
        match reqCookie with
        | some c => authenticateViaRememberCookie cfg env p g w c
        | none =>
            let (e, w) := authenticationFailedStep w
            ⟨.error e, g, w⟩

/-- `check()`: runs `authenticate()`, converts `E_UNAUTHORIZED_ACCESS`
into `false`, passes success through as `true`, and rethrows every other
error unchanged. -/
def check (cfg : SessionGuardConfig) (env : Env) (p : UserProvider)
    (g : SessionGuard) (w : World) (reqCookie : Option CookieVal) :
    StepResult Bool :=
  let s := authenticate cfg env p g w reqCookie
  match s.res with
  | .ok _ => ⟨.ok true, s.guard, s.world⟩
  | .error .unauthorized => ⟨.ok false, s.guard, s.world⟩
  | .error e => ⟨.error e, s.guard, s.world⟩

/-- `logout()`: requires a session, clears the session key and the
cookie, resets the local flags, emits the logged-out event, and then
best-effort deletes the persisted token — only when a request cookie is
present, the provider implements `deleteRememberMeTokenBySeries`, and
the cookie decodes; otherwise it returns without error. -/
def logout (p : UserProvider) (g : SessionGuard) (w : World)
    (reqCookie : Option CookieVal) : StepResult Unit :=
  if !w.hasSession then ⟨.error .runtimeError, g, w⟩
  else
    let w := wForget w (sessionKeyName g)
    let w := wClearCookie w
    let g :=
      { g with
        user := none
        viaRemember := false
        isAuthenticated := false
        isLoggedOut := true }
    let w := wEmit w .loggedOut
    match reqCookie with
    | none => ⟨.ok (), g, w⟩
    | some c =>
        if !p.hasDeleteRememberMeTokenBySeries then ⟨.ok (), g, w⟩
        else
          match RememberMeToken.decode c with
          | none => ⟨.ok (), g, w⟩
          | some sv =>
              let w :=
                { w with
                  tokens := w.tokens.filter (fun t => t.series != sv.1)
                  log := w.log ++ [.providerDeleteTokenBySeries sv.1] }
              ⟨.ok (), g, w⟩


/-- A default configuration (token age left at the source default). -/
def cfgW : SessionGuardConfig := {}

/-- A concrete environment used by the concrete runs below. -/
def envW : Env := ⟨0, 11, 22⟩

/-- A provider implementing every optional capability, with one user. -/
def pFull : UserProvider := ⟨[7], [("alice", "pw", 7)], true, true, true, true⟩

/-- A provider with no users and none of the optional capabilities. -/
def pBare : UserProvider := ⟨[], [], false, false, false, false⟩

/-- A fresh guard named "web". -/
def gW : SessionGuard := freshGuard "web"

/-- An empty request world with a session available. -/
def wW : World := ⟨true, [], 0, [], none, []⟩

end SessionAuth

namespace SessionAuth


/-- Authentication via the session-stored id never touches the `authenticationAttempted` flag. -/
theorem viaId_preserves_attempted (p : UserProvider) (g : SessionGuard)
    (w : World) (id : Nat) :
    (authenticateViaId p g w id).guard.authenticationAttempted
      = g.authenticationAttempted := by
  simp only [authenticateViaId]
  split <;> rfl

/-- Authentication via the remember-me cookie never touches the `authenticationAttempted` flag. -/
theorem viaCookie_preserves_attempted (cfg : SessionGuardConfig) (env : Env)
    (p : UserProvider) (g : SessionGuard) (w : World) (c : CookieVal) :
    (authenticateViaRememberCookie cfg env p g w c).guard.authenticationAttempted
      = g.authenticationAttempted := by
  simp only [authenticateViaRememberCookie]
  split
  · rfl
  · split
    · rfl
    · split
      · rfl
      · split
        · rfl
        · split <;> rfl

/-- After any `authenticate()` call the `authenticationAttempted` flag is set. -/
theorem authenticate_attempted (cfg : SessionGuardConfig) (env : Env)
    (p : UserProvider) (g : SessionGuard) (w : World) (c : Option CookieVal) :
    (authenticate cfg env p g w c).guard.authenticationAttempted = true := by
  simp only [authenticate]
  split
  · simp_all
  · split
    · rfl
    · split
      · rw [viaId_preserves_attempted]
      · split
        · rw [viaCookie_preserves_attempted]
        · rfl

/-- When id-based authentication succeeds, the guard's user is the returned principal. -/
theorem viaId_ok_user (p : UserProvider) (g : SessionGuard) (w : World)
    (id u : Nat) (h : (authenticateViaId p g w id).res = .ok u) :
    (authenticateViaId p g w id).guard.user = some u := by
  revert h
  simp only [authenticateViaId]
  split
  · intro h; exact absurd h (by simp [authenticationFailedStep])
  · intro h
    simp only [authenticationSucceededStep] at h ⊢
    simp only [Except.ok.injEq] at h
    simp [h]

/-- When id-based authentication fails, the guard's user is untouched. -/
theorem viaId_error_user (p : UserProvider) (g : SessionGuard) (w : World)
    (id : Nat) (e : AuthErr) (h : (authenticateViaId p g w id).res = .error e) :
    (authenticateViaId p g w id).guard.user = g.user := by
  revert h
  simp only [authenticateViaId]
  split
  · intro _; rfl
  · intro h; exact absurd h (by simp [authenticationSucceededStep])

/-- When cookie-based authentication succeeds, the guard's user is the returned principal. -/
theorem viaCookie_ok_user (cfg : SessionGuardConfig) (env : Env)
    (p : UserProvider) (g : SessionGuard) (w : World) (c : CookieVal) (u : Nat)
    (h : (authenticateViaRememberCookie cfg env p g w c).res = .ok u) :
    (authenticateViaRememberCookie cfg env p g w c).guard.user = some u := by
  revert h
  simp only [authenticateViaRememberCookie]
  split
  · intro h; exact absurd h (by simp [authenticationFailedStep])
  · split
    · intro h; exact absurd h (by simp [authenticationFailedStep])
    · split
      · intro h; exact absurd h (by simp [authenticationFailedStep])
      · split
        · intro h; exact absurd h (by simp [authenticationFailedStep])
        · split
          · intro h; exact absurd h (by simp [authenticationFailedStep])
          · intro h
            simp only [authenticationSucceededStep] at h ⊢
            simp only [Except.ok.injEq] at h
            simp [h]

/-- When cookie-based authentication fails, the guard's user is untouched. -/
theorem viaCookie_error_user (cfg : SessionGuardConfig) (env : Env)
    (p : UserProvider) (g : SessionGuard) (w : World) (c : CookieVal)
    (e : AuthErr) (h : (authenticateViaRememberCookie cfg env p g w c).res = .error e) :
    (authenticateViaRememberCookie cfg env p g w c).guard.user = g.user := by
  revert h
  simp only [authenticateViaRememberCookie]
  split
  · intro _; rfl
  · split
    · intro _; rfl
    · split
      · intro _; rfl
      · split
        · intro _; rfl
        · split
          · intro _; rfl
          · intro h; exact absurd h (by simp [authenticationSucceededStep])

/-- With the attempt flag already set, `authenticate()` is exactly `getUserOrFail()` and changes nothing. -/
theorem authenticate_run_attempted (cfg : SessionGuardConfig) (env : Env)
    (p : UserProvider) (g : SessionGuard) (w : World) (c : Option CookieVal)
    (h : g.authenticationAttempted = true) :
    authenticate cfg env p g w c = ⟨getUserOrFail g, g, w⟩ := by
  simp only [authenticate, h]
  rfl

/-- When `authenticate()` succeeds, the guard's user is the returned principal. -/
theorem authenticate_ok_user (cfg : SessionGuardConfig) (env : Env)
    (p : UserProvider) (g : SessionGuard) (w : World) (c : Option CookieVal)
    (u : Nat) (h : (authenticate cfg env p g w c).res = .ok u) :
    (authenticate cfg env p g w c).guard.user = some u := by
  revert h
  simp only [authenticate]
  split
  · simp only []
    unfold getUserOrFail
    split
    · intro h; exact absurd h (by simp)
    · intro h; simp only [Except.ok.injEq] at h; simp_all
  · split
    · intro h; exact absurd h (by simp)
    · split
      · exact viaId_ok_user _ _ _ _ _
      · split
        · exact viaCookie_ok_user _ _ _ _ _ _ _
        · intro h; exact absurd h (by simp [authenticationFailedStep])

/-- When `authenticate()` fails, the guard's user is untouched. -/
theorem authenticate_error_user (cfg : SessionGuardConfig) (env : Env)
    (p : UserProvider) (g : SessionGuard) (w : World) (c : Option CookieVal)
    (e : AuthErr) (h : (authenticate cfg env p g w c).res = .error e) :
    (authenticate cfg env p g w c).guard.user = g.user := by
  revert h
  simp only [authenticate]
  split
  · intro _; rfl
  · split
    · intro _; rfl
    · split
      · exact viaId_error_user _ _ _ _ _
      · split
        · exact viaCookie_error_user _ _ _ _ _ _ _
        · intro _; rfl

/-- Claim C1: for a remember-me authentication that reaches recycling, if the
current time is not later than the token's `updatedAt` plus 60 seconds, the
guard re-issues the existing cookie value unchanged and neither the token
store nor the trace sees a recycle write; if the current time is later, the
guard refreshes the token (new secret, hash and expiry), persists it via
`recycleRememberMeToken`, sets the cookie to the newly released value, and
the old cookie's secret no longer verifies against the new hash. -/
theorem recycle_buffer_policy (cfg : SessionGuardConfig) (env : Env)
    (w : World) (token : RememberMeToken) (cookie : CookieVal) (oldSecret : Nat)
    (_hver : token.verify oldSecret = true)
    (hfresh : env.freshSecret ≠ oldSecret) :
    (¬ token.updatedAt + 60 < env.now →
        recycleRememberMeToken cfg env w token cookie
          = { w with respCookie := some (.set cookie),
                     log := w.log ++ [.setCookie cookie] })
    ∧ (token.updatedAt + 60 < env.now →
        recycleRememberMeToken cfg env w token cookie
          = { w with
              tokens := w.tokens.map (fun t =>
                if t.series == token.series then
                  token.refresh (cfg.rememberMeTokenAge.getD twoYears) env
                else t)
              respCookie := some (.set (.enc token.series env.freshSecret))
              log := w.log ++ [.providerRecycleToken token.series,
                               .setCookie (.enc token.series env.freshSecret)] }
          ∧ (token.refresh (cfg.rememberMeTokenAge.getD twoYears) env).verify oldSecret
              = false) := by
  constructor
  · intro h
    simp [recycleRememberMeToken, createRememberMeCookie, wSetCookie, h]
  · intro h
    constructor
    · simp [recycleRememberMeToken, createRememberMeCookie, wSetCookie, h,
            RememberMeToken.refresh, RememberMeToken.releaseCookie, List.append_assoc]
    · simp [RememberMeToken.refresh, RememberMeToken.verify, hashSecret]
      omega

/-- Concrete instantiation of the recycling policy, past the buffer. -/
theorem recycle_buffer_policy_witness :
    RememberMeToken.verify ⟨1, 7, "web", hashSecret 9, some 9, 0, 0, 500⟩ 9 = true ∧
    (4 : Nat) ≠ 9 ∧
    (RememberMeToken.refresh ⟨1, 7, "web", hashSecret 9, some 9, 0, 0, 500⟩
        (cfgW.rememberMeTokenAge.getD twoYears) ⟨100, 3, 4⟩).verify 9 = false :=
  ⟨by decide, by decide,
   ((recycle_buffer_policy cfgW ⟨100, 3, 4⟩ wW ⟨1, 7, "web", hashSecret 9, some 9, 0, 0, 500⟩
      (.garbage 0) 9 (by decide) (by decide)).2 (by decide)).2⟩

/-- Claim C3: `check()` returns `true` exactly when `authenticate()` succeeds,
converts the `Unauthorized` failure to `false` without propagating it, and
propagates every other error unchanged, leaving guard and world exactly as
`authenticate()` left them. -/
theorem check_unauthorized_policy (cfg : SessionGuardConfig) (env : Env)
    (p : UserProvider) (g : SessionGuard) (w : World) (c : Option CookieVal) :
    (check cfg env p g w c).guard = (authenticate cfg env p g w c).guard ∧
    (check cfg env p g w c).world = (authenticate cfg env p g w c).world ∧
    ((∃ u, (authenticate cfg env p g w c).res = .ok u)
        ↔ (check cfg env p g w c).res = .ok true) ∧
    ((authenticate cfg env p g w c).res = .error .unauthorized
        ↔ (check cfg env p g w c).res = .ok false) ∧
    (∀ e, e ≠ AuthErr.unauthorized →
        ((authenticate cfg env p g w c).res = .error e
            ↔ (check cfg env p g w c).res = .error e)) := by
  simp only [check]
  cases h : (authenticate cfg env p g w c).res with
  | ok u => simp
  | error e =>
    cases e <;> simp
    exact fun e he hh => he hh.symm

/-- Concrete run of `check()` on an empty request: `false`, not an error. -/
theorem check_unauthorized_policy_witness :
    (check cfgW envW pBare gW wW none).res = .ok false :=
  (check_unauthorized_policy cfgW envW pBare gW wW none).2.2.2.1.mp (by decide)

/-- Claim C2 (amended): a second `authenticate()` call leaves the guard and
world exactly as the first call left them — so it performs no provider
lookups and emits no events — and returns the previously resolved user when
the first call succeeded; when the first call failed and the guard's user
reference was never set in the request, it re-raises the `Unauthorized`
failure. (When a prior `login()` set the user, a failed first call is
followed by a second call returning that user: see the counterexample.) -/
theorem authenticate_memoized (cfg : SessionGuardConfig) (env1 env2 : Env)
    (p : UserProvider) (g : SessionGuard) (w : World) (c : Option CookieVal)
    (s1 s2 : StepResult Nat)
    (h1 : s1 = authenticate cfg env1 p g w c)
    (h2 : s2 = authenticate cfg env2 p s1.guard s1.world c) :
    s2.guard = s1.guard ∧ s2.world = s1.world ∧
    (∀ u, s1.res = .ok u → s2.res = .ok u) ∧
    (g.user = none → ∀ e, s1.res = .error e → s2.res = .error .unauthorized) := by
  have hA : s1.guard.authenticationAttempted = true := by
    rw [h1]; exact authenticate_attempted cfg env1 p g w c
  rw [authenticate_run_attempted cfg env2 p s1.guard s1.world c hA] at h2
  refine ⟨by rw [h2], by rw [h2], ?_, ?_⟩
  · intro u hu
    have hu' : (authenticate cfg env1 p g w c).res = .ok u := by rw [← h1]; exact hu
    have huser : s1.guard.user = some u := by
      rw [h1]; exact authenticate_ok_user cfg env1 p g w c u hu'
    rw [h2]
    simp [getUserOrFail, huser]
  · intro hnone e he
    have he' : (authenticate cfg env1 p g w c).res = .error e := by rw [← h1]; exact he
    have huser : s1.guard.user = g.user := by
      rw [h1]; exact authenticate_error_user cfg env1 p g w c e he'
    rw [h2]
    simp [getUserOrFail, huser, hnone]

/-- Claim C2 counterexample: after `login()` has set the user against a
provider whose `findById` cannot resolve it, the first `authenticate()` call
fails with `Unauthorized` while the second call returns the user — the two
calls do not yield identical results and the second does not re-raise the
previously resolved failure. -/
theorem authenticate_memoization_cex :
    ((authenticate cfgW envW pBare
        (login cfgW envW pBare gW wW 7 false).guard
        (login cfgW envW pBare gW wW 7 false).world none).res
      = .error .unauthorized)
    ∧ ((authenticate cfgW envW pBare
        (authenticate cfgW envW pBare (login cfgW envW pBare gW wW 7 false).guard
            (login cfgW envW pBare gW wW 7 false).world none).guard
        (authenticate cfgW envW pBare (login cfgW envW pBare gW wW 7 false).guard
            (login cfgW envW pBare gW wW 7 false).world none).world none).res
      = .ok 7) := by decide

/-- Concrete instantiation of the memoization theorem on a failing request. -/
theorem authenticate_memoized_witness :
    gW.user = none ∧
    (authenticate cfgW envW pBare
        (authenticate cfgW envW pBare gW wW none).guard
        (authenticate cfgW envW pBare gW wW none).world none).res
      = .error .unauthorized :=
  ⟨rfl,
   (authenticate_memoized cfgW envW envW pBare gW wW none
      (authenticate cfgW envW pBare gW wW none)
      (authenticate cfgW envW pBare
        (authenticate cfgW envW pBare gW wW none).guard
        (authenticate cfgW envW pBare gW wW none).world none) rfl rfl).2.2.2
      rfl .unauthorized (by decide)⟩

/-- Claim C4: `login(user, remember=true)` against a provider without
`createRememberMeToken` fails with the configuration error, and at that
point no session mutation has occurred: the resulting world differs from
the initial one only by the login-attempted event and the adapter call, so
no session key was written and the session id was not regenerated. -/
theorem login_misconfigured_no_mutation (cfg : SessionGuardConfig) (env : Env)
    (p : UserProvider) (g : SessionGuard) (w : World) (u : Nat)
    (hS : w.hasSession = true) (hC : p.hasCreateRememberMeToken = false) :
    login cfg env p g w u true
      = ⟨.error .misconfiguredProvider, g,
         { w with log := w.log ++ [.emit .loginAttempted, .providerCreateUserForGuard] }⟩ := by
  simp [login, wEmit, wLog, hS, hC]

/-- Concrete misconfigured `login(remember=true)` run. -/
theorem login_misconfigured_no_mutation_witness :
    wW.hasSession = true ∧ pBare.hasCreateRememberMeToken = false ∧
    login cfgW envW pBare gW wW 7 true
      = ⟨.error .misconfiguredProvider, gW,
         { wW with log := wW.log ++ [.emit .loginAttempted, .providerCreateUserForGuard] }⟩ :=
  ⟨rfl, rfl, login_misconfigured_no_mutation cfgW envW pBare gW wW 7 rfl rfl⟩

/-- Claim C7: when the session-stored id no longer resolves via `findById`,
`authenticate()` fails with `Unauthorized` (no other error), and the session
store, session id and persisted tokens are left unchanged. -/
theorem authenticate_stale_id (cfg : SessionGuardConfig) (env : Env)
    (p : UserProvider) (g : SessionGuard) (w : World) (c : Option CookieVal)
    (id : Nat)
    (hA : g.authenticationAttempted = false) (hS : w.hasSession = true)
    (hGet : sessionGet w.sessionStore (sessionKeyName g) = some id) (hid : id ≠ 0)
    (hMiss : id ∉ p.users) :
    (authenticate cfg env p g w c).res = .error .unauthorized ∧
    (authenticate cfg env p g w c).world.sessionStore = w.sessionStore ∧
    (authenticate cfg env p g w c).world.sessionId = w.sessionId ∧
    (authenticate cfg env p g w c).world.tokens = w.tokens := by
  simp only [sessionGet, sessionKeyName] at hGet
  simp [authenticate, hA, hS, sessionGet, sessionKeyName, wEmit, wLog, jsTruthy, hGet,
        hid, authenticateViaId, findById, hMiss, authenticationFailedStep]



/-- Concrete stale-session-id run of `authenticate()`. -/
theorem authenticate_stale_id_witness :
    gW.authenticationAttempted = false ∧
    sessionGet [("auth_web", 9)] (sessionKeyName gW) = some 9 ∧
    (9 : Nat) ≠ 0 ∧ (9 : Nat) ∉ pBare.users ∧
    (authenticate cfgW envW pBare gW ⟨true, [("auth_web", 9)], 0, [], none, []⟩ none).res
      = .error .unauthorized :=
  ⟨rfl, by decide, by decide, by decide,
   (authenticate_stale_id cfgW envW pBare gW ⟨true, [("auth_web", 9)], 0, [], none, []⟩
      none 9 rfl rfl (by decide) (by decide) (by decide)).1⟩

/-- Claim C5 counterexample: with a remember-me cookie present and a provider
lacking `findRememberMeTokenBySeries`, `authenticate()` fails with the
ordinary `Unauthorized` error — not a configuration error — and `check()`
converts it to `false`, silently treating the misconfiguration as
logged out. -/
theorem capability_absence_cex :
    (authenticate cfgW envW pBare gW wW (some (.enc 1 2))).res = .error .unauthorized ∧
    (check cfgW envW pBare gW wW (some (.enc 1 2))).res = .ok false := by decide

/-- Claim C5 (amended): only the login-time absence of
`createRememberMeToken` is surfaced as a configuration error distinct from
`Unauthorized`; the authenticate-time absence of the remember-me
lookup/recycle capabilities is treated as an ordinary `Unauthorized`
authentication failure, which `check()` downgrades to `false`. -/
theorem capability_absence_errors (cfg : SessionGuardConfig) (env : Env)
    (p : UserProvider) (g : SessionGuard) (w : World) (u : Nat) (cookie : CookieVal)
    (hS : w.hasSession = true)
    (hA : g.authenticationAttempted = false)
    (hGet : jsTruthy (sessionGet w.sessionStore (sessionKeyName g)) = false)
    (hcap : p.hasFindRememberMeTokenBySeries = false
        ∨ p.hasRecycleRememberMeToken = false) :
    (p.hasCreateRememberMeToken = false →
        (login cfg env p g w u true).res = .error .misconfiguredProvider) ∧
    (authenticate cfg env p g w (some cookie)).res = .error .unauthorized ∧
    (check cfg env p g w (some cookie)).res = .ok false ∧
    AuthErr.misconfiguredProvider ≠ AuthErr.unauthorized := by
  simp only [sessionKeyName] at hGet
  have hauth : (authenticate cfg env p g w (some cookie)).res = .error .unauthorized := by
    rcases hcap with hcap | hcap <;>
      simp [authenticate, hA, hS, sessionKeyName, hGet, authenticateViaRememberCookie,
            hcap, authenticationFailedStep, wEmit]
  refine ⟨?_, hauth, ?_, by simp⟩
  · intro hC
    simp [login, wEmit, wLog, hS, hC]
  · simp [check, hauth]

/-- Concrete run with a capability-free provider and a cookie. -/
theorem capability_absence_errors_witness :
    wW.hasSession = true ∧ gW.authenticationAttempted = false ∧
    jsTruthy (sessionGet wW.sessionStore (sessionKeyName gW)) = false ∧
    (pBare.hasFindRememberMeTokenBySeries = false
        ∨ pBare.hasRecycleRememberMeToken = false) ∧
    (check cfgW envW pBare gW wW (some (.enc 1 2))).res = .ok false :=
  ⟨rfl, rfl, by decide, Or.inl rfl,
   (capability_absence_errors cfgW envW pBare gW wW 7 (.enc 1 2) rfl rfl (by decide)
      (Or.inl rfl)).2.2.1⟩

/-- Claim C6: a successful `login(user, remember)` stores the principal id in
the session and then regenerates the session id — in that relative order —
sets `isLoggedOut` to false and `user` to the principal, emits the
login-succeeded event last, and clears any remember-me cookie when
`remember` is false. -/
theorem login_success_effects (cfg : SessionGuardConfig) (env : Env)
    (p : UserProvider) (g : SessionGuard) (w : World) (u : Nat) (remember : Bool)
    (hS : w.hasSession = true)
    (hC : remember = true → p.hasCreateRememberMeToken = true) :
    (login cfg env p g w u remember).res = .ok u ∧
    (login cfg env p g w u remember).guard
      = { g with user := some u, isLoggedOut := false } ∧
    sessionGet (login cfg env p g w u remember).world.sessionStore (sessionKeyName g)
      = some u ∧
    (login cfg env p g w u remember).world.sessionId = w.sessionId + 1 ∧
    (∃ mid, (login cfg env p g w u remember).world.log
        = w.log ++ [.emit .loginAttempted, .providerCreateUserForGuard] ++ mid
            ++ [.sessionPut (sessionKeyName g) u, .sessionRegenerate,
                .emit .loginSucceeded]) ∧
    (remember = false →
        (login cfg env p g w u remember).world.respCookie = some .cleared) := by
  cases remember with
  | false =>
      refine ⟨?_, ?_, ?_, ?_, ⟨[.clearCookie], ?_⟩, ?_⟩ <;>
        simp [login, wEmit, wLog, wClearCookie, createSessionForUser, wPut, wRegenerate,
              sessionGet, sessionKeyName, hS]
  | true =>
      have hC' := hC rfl
      refine ⟨?_, ?_, ?_, ?_, ⟨[.providerCreateToken env.freshSeries,
          .setCookie (.enc env.freshSeries env.freshSecret)], ?_⟩, ?_⟩ <;>
        simp [login, wEmit, wLog, wSetCookie, createRememberMeCookie,
              createSessionForUser, wPut, wRegenerate, sessionGet, sessionKeyName, hS,
              hC', RememberMeToken.create, RememberMeToken.releaseCookie,
              List.append_assoc]

/-- Concrete successful remember-me login. -/
theorem login_success_effects_witness :
    wW.hasSession = true ∧ pFull.hasCreateRememberMeToken = true ∧
    (login cfgW envW pFull gW wW 7 true).res = .ok 7 :=
  ⟨rfl, rfl, (login_success_effects cfgW envW pFull gW wW 7 true rfl (fun _ => rfl)).1⟩



/-- Reading a key from a store from which it was just forgotten yields nothing. -/
theorem sessionGet_after_forget (store : List (String × Nat)) (key : String) :
    sessionGet (store.filter (fun e => e.1 != key)) key = none := by
  simp only [sessionGet]
  rw [List.find?_filter]
  simp [List.find?_eq_none]

/-- Claim C8: `logout()` always succeeds: it clears the session key and the
response cookie, resets `user`, `viaRemember`, `isAuthenticated` and sets
`isLoggedOut`, emits the logged-out event, and attempts provider-side token
deletion only when a request cookie is present, the provider implements
`deleteRememberMeTokenBySeries`, and the cookie decodes; in every other
case the token store is untouched and no deletion is attempted. -/
theorem logout_effects (p : UserProvider) (g : SessionGuard) (w : World)
    (c : Option CookieVal) (hS : w.hasSession = true) :
    (logout p g w c).res = .ok () ∧
    sessionGet (logout p g w c).world.sessionStore (sessionKeyName g) = none ∧
    (logout p g w c).world.respCookie = some .cleared ∧
    (logout p g w c).guard
      = { g with user := none, viaRemember := false,
                 isAuthenticated := false, isLoggedOut := true } ∧
    (match c, p.hasDeleteRememberMeTokenBySeries with
     | some cv, true =>
        match RememberMeToken.decode cv with
        | some sv =>
            (logout p g w c).world.tokens
              = w.tokens.filter (fun t => t.series != sv.1) ∧
            (logout p g w c).world.log
              = w.log ++ [.sessionForget (sessionKeyName g), .clearCookie,
                          .emit .loggedOut, .providerDeleteTokenBySeries sv.1]
        | none =>
            (logout p g w c).world.tokens = w.tokens ∧
            (logout p g w c).world.log
              = w.log ++ [.sessionForget (sessionKeyName g), .clearCookie,
                          .emit .loggedOut]
     | _, _ =>
        (logout p g w c).world.tokens = w.tokens ∧
        (logout p g w c).world.log
          = w.log ++ [.sessionForget (sessionKeyName g), .clearCookie,
                      .emit .loggedOut]) := by
  cases c with
  | none =>
      refine ⟨?_, ?_, ?_, ?_, ?_⟩ <;>
        simp [logout, wForget, wClearCookie, wEmit, hS, sessionGet_after_forget,
              List.append_assoc]
  | some cv =>
      cases hD : p.hasDeleteRememberMeTokenBySeries with
      | false =>
          refine ⟨?_, ?_, ?_, ?_, ?_⟩ <;>
            simp [logout, wForget, wClearCookie, wEmit, hS, hD,
                  sessionGet_after_forget, List.append_assoc]
      | true =>
          cases cv with
          | enc series secret =>
              refine ⟨?_, ?_, ?_, ?_, ?_⟩ <;>
                simp [logout, wForget, wClearCookie, wEmit, hS, hD,
                      RememberMeToken.decode, sessionGet_after_forget,
                      List.append_assoc]
          | garbage n =>
              refine ⟨?_, ?_, ?_, ?_, ?_⟩ <;>
                simp [logout, wForget, wClearCookie, wEmit, hS, hD,
                      RememberMeToken.decode, sessionGet_after_forget,
                      List.append_assoc]

/-- Concrete logout with a valid cookie but no provider deletion capability. -/
theorem logout_effects_witness :
    wW.hasSession = true ∧
    (logout pBare gW wW (some (.enc 1 2))).res = .ok () ∧
    (logout pBare gW wW (some (.enc 1 2))).world.respCookie = some .cleared :=
  ⟨rfl, (logout_effects pBare gW wW (some (.enc 1 2)) rfl).1,
   (logout_effects pBare gW wW (some (.enc 1 2)) rfl).2.2.1⟩

/-- Claim C9: a remember-me token found by series whose `guard` field differs
from the authenticating guard's name makes `authenticate()` fail with
`Unauthorized`, even though the series was found and the cookie's secret
verifies against the stored hash. -/
theorem remember_token_guard_scope (cfg : SessionGuardConfig) (env : Env)
    (p : UserProvider) (g : SessionGuard) (w : World)
    (series secret : Nat) (token : RememberMeToken)
    (hA : g.authenticationAttempted = false) (hS : w.hasSession = true)
    (hGet : jsTruthy (sessionGet w.sessionStore (sessionKeyName g)) = false)
    (hcap1 : p.hasFindRememberMeTokenBySeries = true)
    (hcap2 : p.hasRecycleRememberMeToken = true)
    (hFind : findTokenBySeries w.tokens env.now series = some token)
    (hVer : token.verify secret = true)
    (hGuard : token.guard ≠ g.name) :
    (authenticate cfg env p g w (some (.enc series secret))).res
      = .error .unauthorized := by
  simp only [sessionKeyName] at hGet
  simp [authenticate, hA, hS, sessionKeyName, hGet, authenticateViaRememberCookie,
        hcap1, hcap2, RememberMeToken.decode, hFind, hVer, hGuard,
        authenticationFailedStep, wEmit, wLog]

/-- Concrete cross-guard remember-me cookie rejection. -/
theorem remember_token_guard_scope_witness :
    gW.authenticationAttempted = false ∧ wW.hasSession = true ∧
    pFull.hasFindRememberMeTokenBySeries = true ∧
    pFull.hasRecycleRememberMeToken = true ∧
    findTokenBySeries [⟨1, 7, "api", hashSecret 2, some 2, 0, 0, 500⟩] envW.now 1
      = some ⟨1, 7, "api", hashSecret 2, some 2, 0, 0, 500⟩ ∧
    RememberMeToken.verify ⟨1, 7, "api", hashSecret 2, some 2, 0, 0, 500⟩ 2 = true ∧
    "api" ≠ "web" ∧
    (authenticate cfgW envW pFull gW
        ⟨true, [], 0, [⟨1, 7, "api", hashSecret 2, some 2, 0, 0, 500⟩], none, []⟩
        (some (.enc 1 2))).res = .error .unauthorized :=
  ⟨rfl, rfl, rfl, rfl, by decide, by decide, by decide,
   remember_token_guard_scope cfgW envW pFull gW
      ⟨true, [], 0, [⟨1, 7, "api", hashSecret 2, some 2, 0, 0, 500⟩], none, []⟩
      1 2 ⟨1, 7, "api", hashSecret 2, some 2, 0, 0, 500⟩
      rfl rfl (by decide) rfl rfl (by decide) (by decide) (by decide)⟩



/-- `login()` never changes `isAuthenticated` or `viaRemember`. -/
theorem login_guard_flags (cfg : SessionGuardConfig) (env : Env) (p : UserProvider)
    (g : SessionGuard) (w : World) (u : Nat) (r : Bool) :
    (login cfg env p g w u r).guard.isAuthenticated = g.isAuthenticated ∧
    (login cfg env p g w u r).guard.viaRemember = g.viaRemember := by
  simp only [login]
  split
  · exact ⟨rfl, rfl⟩
  · split
    · split
      · exact ⟨rfl, rfl⟩
      · exact ⟨rfl, rfl⟩
    · exact ⟨rfl, rfl⟩

/-- `verifyCredentials()` never changes the guard state. -/
theorem verifyCredentials_guard (p : UserProvider) (g : SessionGuard) (w : World)
    (uid pwd : String) :
    (verifyCredentials p g w uid pwd).guard = g := by
  simp only [verifyCredentials]
  split <;> rfl

/-- `attempt()` never changes `isAuthenticated` or `viaRemember`. -/
theorem attempt_guard_flags (cfg : SessionGuardConfig) (env : Env) (p : UserProvider)
    (g : SessionGuard) (w : World) (uid pwd : String) (r : Bool) :
    (attempt cfg env p g w uid pwd r).guard.isAuthenticated = g.isAuthenticated ∧
    (attempt cfg env p g w uid pwd r).guard.viaRemember = g.viaRemember := by
  simp only [attempt]
  split
  · rw [verifyCredentials_guard]; exact ⟨rfl, rfl⟩
  · rename_i u _
    constructor
    · rw [(login_guard_flags cfg env p _ _ u r).1, verifyCredentials_guard]
    · rw [(login_guard_flags cfg env p _ _ u r).2, verifyCredentials_guard]

/-- `loginViaId()` never changes `isAuthenticated` or `viaRemember`. -/
theorem loginViaId_guard_flags (cfg : SessionGuardConfig) (env : Env)
    (p : UserProvider) (g : SessionGuard) (w : World) (id : Nat) (r : Bool) :
    (loginViaId cfg env p g w id r).guard.isAuthenticated = g.isAuthenticated ∧
    (loginViaId cfg env p g w id r).guard.viaRemember = g.viaRemember := by
  simp only [loginViaId]
  split
  · exact ⟨rfl, rfl⟩
  · rename_i u _
    exact login_guard_flags cfg env p g _ u r

/-- A successful `login()` sets the user and forces `isLoggedOut` to false. -/
theorem login_ok_state (cfg : SessionGuardConfig) (env : Env) (p : UserProvider)
    (g : SessionGuard) (w : World) (u : Nat) (r : Bool) (v : Nat)
    (h : (login cfg env p g w u r).res = .ok v) :
    (login cfg env p g w u r).guard.isLoggedOut = false ∧
    (login cfg env p g w u r).guard.user = some v := by
  revert h
  simp only [login]
  split
  · intro h; exact absurd h (by simp)
  · split
    · split
      · intro h; exact absurd h (by simp)
      · intro h
        simp only [Except.ok.injEq] at h
        exact ⟨rfl, by rw [← h]⟩
    · intro h
      simp only [Except.ok.injEq] at h
      exact ⟨rfl, by rw [← h]⟩

/-- Claim C10: `login()` (and therefore `attempt()` and `loginViaId()`)
leaves `isAuthenticated` and `viaRemember` unchanged — on a freshly
constructed guard they remain false after login — while a successful call
sets `user` and forces `isLoggedOut` to false; `verifyCredentials()` leaves
the guard untouched and `logout()` never sets `isAuthenticated` to true, so
the flag becomes true only through the `authenticate()`/`check()` path. -/
theorem login_frame_flags (cfg : SessionGuardConfig) (env : Env) (p : UserProvider)
    (g : SessionGuard) (w : World) (u : Nat) (remember : Bool)
    (uid pwd : String) (id : Nat) (name : String) (c : Option CookieVal) :
    (login cfg env p g w u remember).guard.isAuthenticated = g.isAuthenticated ∧
    (login cfg env p g w u remember).guard.viaRemember = g.viaRemember ∧
    (∀ v, (login cfg env p g w u remember).res = .ok v →
        (login cfg env p g w u remember).guard.isLoggedOut = false ∧
        (login cfg env p g w u remember).guard.user = some v) ∧
    (attempt cfg env p g w uid pwd remember).guard.isAuthenticated
      = g.isAuthenticated ∧
    (attempt cfg env p g w uid pwd remember).guard.viaRemember = g.viaRemember ∧
    (loginViaId cfg env p g w id remember).guard.isAuthenticated
      = g.isAuthenticated ∧
    (loginViaId cfg env p g w id remember).guard.viaRemember = g.viaRemember ∧
    (login cfg env p (freshGuard name) w u remember).guard.isAuthenticated = false ∧
    (login cfg env p (freshGuard name) w u remember).guard.viaRemember = false ∧
    (verifyCredentials p g w uid pwd).guard = g ∧
    ((logout p g w c).guard.isAuthenticated = false ∨ (logout p g w c).guard = g) := by
  refine ⟨(login_guard_flags cfg env p g w u remember).1,
          (login_guard_flags cfg env p g w u remember).2,
          fun v h => login_ok_state cfg env p g w u remember v h,
          (attempt_guard_flags cfg env p g w uid pwd remember).1,
          (attempt_guard_flags cfg env p g w uid pwd remember).2,
          (loginViaId_guard_flags cfg env p g w id remember).1,
          (loginViaId_guard_flags cfg env p g w id remember).2,
          ?_, ?_, verifyCredentials_guard p g w uid pwd, ?_⟩
  · rw [(login_guard_flags cfg env p (freshGuard name) w u remember).1]; rfl
  · rw [(login_guard_flags cfg env p (freshGuard name) w u remember).2]; rfl
  · simp only [logout]
    split
    · exact Or.inr rfl
    · refine Or.inl ?_
      cases c with
      | none => rfl
      | some cv => (repeat' split) <;> rfl

/-- Concrete successful login keeping the authentication flags false. -/
theorem login_frame_flags_witness :
    (login cfgW envW pFull gW wW 7 false).res = .ok 7 ∧
    (login cfgW envW pFull gW wW 7 false).guard.isLoggedOut = false ∧
    (login cfgW envW pFull gW wW 7 false).guard.user = some 7 :=
  ⟨by decide,
   (login_frame_flags cfgW envW pFull gW wW 7 false "alice" "pw" 7 "web" none).2.2.1 7
     (by decide)⟩


end SessionAuth
